import Mathlib

/-!
Shallow embedding of the upkg core (src/util.rs, src/stats.rs, src/pacman.rs,
src/managers/pacman.rs) and proofs about it.  Pure Rust functions become Lean
functions over lists of characters; stateful loops become explicit state
passing over finite event traces; code that can panic returns Option
(none = panic); fallible probes return Option results.  Sizes computed with
f64 arithmetic in the source are modelled over the rationals.
-/

namespace Upkg

/-- The ASCII escape character 0x1B that starts an ANSI escape sequence. -/
def escChar : Char := Char.ofNat 27

/-- State machine of util.rs strip_ansi: the flag is the in_escape variable;
an ESC enters escape mode, a subsequent m leaves it, every character seen
while in escape mode is dropped, everything else is copied. -/
def stripAnsiAux : Bool → List Char → List Char
  | _, [] => []
  | inEscape, c :: cs =>
    if c = escChar then stripAnsiAux true cs
    else if inEscape then
      if c = 'm' then stripAnsiAux false cs else stripAnsiAux true cs
    else c :: stripAnsiAux false cs

/-- util.rs strip_ansi, lifted to String. -/
def strip_ansi (s : String) : String := String.mk (stripAnsiAux false s.data)

/-- Whitespace test used for trimming and splitting (ASCII whitespace). -/
def isWS (c : Char) : Bool := c.isWhitespace

/-- Rust str::trim on the character list. -/
def trimChars (l : List Char) : List Char :=
  ((l.dropWhile isWS).reverse.dropWhile isWS).reverse

/-- Rust str::contains for literal substrings. -/
def listContains (hay needle : List Char) : Bool :=
  match hay with
  | [] => needle.isEmpty
  | c :: t => needle.isPrefixOf (c :: t) || listContains t needle

/-- Rust str::split_whitespace, step 1: cut at whitespace keeping empty runs. -/
def splitWSAux (l : List Char) : List (List Char) :=
  l.foldr
    (fun c acc =>
      if isWS c then [] :: acc
      else
        match acc with
        | [] => [[c]]
        | t :: ts => (c :: t) :: ts)
    []

/-- Rust str::split_whitespace: whitespace-separated nonempty tokens. -/
def splitWhitespace (l : List Char) : List (List Char) :=
  (splitWSAux l).filter (fun t => !t.isEmpty)

/-- Rust str::strip_suffix for a one-character suffix. -/
def stripSuffixChar (c : Char) (l : List Char) : Option (List Char) :=
  match l.getLast? with
  | some d => if d = c then some l.dropLast else none
  | none => none

/-- Digit accumulator of an unsigned decimal parse. -/
def parseDigitsAux (acc : Nat) : List Char → Option Nat
  | [] => some acc
  | c :: cs => if c.isDigit then parseDigitsAux (acc * 10 + (c.toNat - 48)) cs else none

/-- Rust str::parse into u8: optional leading plus sign, at least one digit,
every character a digit, value at most 255 (overflow is an error). -/
def parseU8 (l : List Char) : Option Nat :=
  let l' := match l with
    | '+' :: rest => rest
    | _ => l
  match l' with
  | [] => none
  | _ =>
    match parseDigitsAux 0 l' with
    | some v => if v ≤ 255 then some v else none
    | none => none

-- ## Sync progress tracker (src/pacman.rs, SyncProgress)

/-- pacman.rs DbSyncState: a repository database is either syncing at some
percentage or complete. -/
inductive DbSyncState where
  | Syncing (pct : Nat)
  | Complete
deriving DecidableEq, Repr

/-- pacman.rs SyncProgress: one slot per tracked repository database. -/
structure SyncProgress where
  core : DbSyncState
  extra : DbSyncState
  multilib : DbSyncState
deriving DecidableEq, Repr

/-- SyncProgress::new. -/
def SyncProgress.new : SyncProgress :=
  ⟨DbSyncState.Syncing 0, DbSyncState.Syncing 0, DbSyncState.Syncing 0⟩

/-- SyncProgress::format_state. -/
def formatState : DbSyncState → String
  | DbSyncState.Syncing pct => toString pct ++ "%"
  | DbSyncState.Complete => "✓"

/-- SyncProgress::format. -/
def SyncProgress.format (s : SyncProgress) : String :=
  "core " ++ formatState s.core ++ " | extra " ++ formatState s.extra ++
    " | multilib " ++ formatState s.multilib

/-- SyncProgress::update_from_line.  In the source the percentage branch
reads parts[0] and parts[parts.len()-1] under a parts.len() >= 2 guard;
here the guard is the cons pattern plus rest.getLast? being some, and the
last element is rest.getLast?. -/
def SyncProgress.update_from_line (s : SyncProgress) (line : String) : SyncProgress :=
  let clean := strip_ansi line
  let t := trimChars clean.data
  if listContains t "is up to date".data then
    if "core".data.isPrefixOf t then { s with core := DbSyncState.Complete }
    else if "extra".data.isPrefixOf t then { s with extra := DbSyncState.Complete }
    else if "multilib".data.isPrefixOf t then { s with multilib := DbSyncState.Complete }
    else s
  else
    match splitWhitespace t with
    | [] => s
    | db_name :: rest =>
      match rest.getLast? with
      | none => s
      | some lastTok =>
        match stripSuffixChar '%' lastTok with
        | none => s
        | some pct_str =>
          match parseU8 pct_str with
          | none => s
          | some pct =>
            let st := if 100 ≤ pct then DbSyncState.Complete else DbSyncState.Syncing pct
            if db_name = "core".data then { s with core := st }
            else if db_name = "extra".data then { s with extra := st }
            else if db_name = "multilib".data then { s with multilib := st }
            else s

-- ## Upgrade transaction simulation (src/pacman.rs, get_upgrade_sizes)

/-- pacman.rs ManagerStats: counters default to 0, optional probe results to
none (derive(Default)). -/
structure ManagerStats where
  total_installed : Nat := 0
  total_upgradable : Nat := 0
  days_since_last_update : Option Int := none
  download_size_mb : Option ℚ := none
  total_installed_size_mb : Option ℚ := none
  net_upgrade_size_mb : Option ℚ := none
  orphaned_packages : Option Nat := none
  orphaned_size_mb : Option ℚ := none
  cache_size_mb : Option ℚ := none
  mirror_url : Option String := none
  mirror_sync_age_hours : Option ℚ := none
  pacman_version : Option String := none
deriving Repr, DecidableEq

/-- pacman.rs UpgradeStats with its Default (all sizes none, count 0). -/
structure UpgradeStats where
  download_size_mb : Option ℚ := none
  installed_size_mb : Option ℚ := none
  net_upgrade_size_mb : Option ℚ := none
  package_count : Nat := 0
deriving Repr, DecidableEq

/-- A package of the simulated transaction: its name, download size and
installed size in bytes (libalpm i64 values, modelled as Int). -/
structure Pkg where
  name : String
  download_size : Int
  isize : Int

/-- Environment of one get_upgrade_sizes run: whether each libalpm stage
succeeds, the transaction add and remove lists the simulation produces, and
the local-database lookup giving the installed size of an already installed
package. -/
structure AlpmEnv where
  handle_ok : Bool
  trans_init_ok : Bool
  sysupgrade_ok : Bool
  prepare_ok : Bool
  trans_add : List Pkg
  trans_remove : List Pkg
  localdb : String → Option Int

/-- pacman.rs get_upgrade_sizes: any failed stage returns the default
(every size field absent); otherwise all three size fields are computed from
the one prepared transaction, in MiB, with a net result inside
(-0.01, 0.01) normalized to exactly 0. -/
def get_upgrade_sizes (env : AlpmEnv) : UpgradeStats :=
  if !env.handle_ok then {}
  else if !env.trans_init_ok then {}
  else if !env.sysupgrade_ok then {}
  else if !env.prepare_ok then {}
  else
    let total_download_size : Int :=
      env.trans_add.foldl (fun acc p => acc + p.download_size) 0
    let total_installed_size : Int :=
      env.trans_add.foldl (fun acc p => acc + p.isize) 0
    let net_after_adds : Int :=
      env.trans_add.foldl
        (fun acc p =>
          match env.localdb p.name with
          | some old_size => acc + (p.isize - old_size)
          | none => acc + p.isize)
        0
    let net_upgrade_size : Int :=
      env.trans_remove.foldl (fun acc p => acc - p.isize) net_after_adds
    let download_mib : ℚ := (total_download_size : ℚ) / 1048576
    let installed_mib : ℚ := (total_installed_size : ℚ) / 1048576
    let net_mib0 : ℚ := (net_upgrade_size : ℚ) / 1048576
    let net_mib : ℚ := if -1 / 100 < net_mib0 ∧ net_mib0 < 1 / 100 then 0 else net_mib0
    { download_size_mb := some download_mib
      installed_size_mb := some installed_mib
      net_upgrade_size_mb := some net_mib
      package_count := env.trans_add.length }

/-- Per-added-package contribution to net size as the spec words it: new
installed size minus old installed size for an upgrade, full installed size
for a new install. -/
def netAddContribution (env : AlpmEnv) (p : Pkg) : Int :=
  match env.localdb p.name with
  | some old_size => p.isize - old_size
  | none => p.isize

/-- Net size in bytes as the spec words it: contributions of added packages
minus sizes of removed packages. -/
def netSizeSpec (env : AlpmEnv) : Int :=
  (env.trans_add.map (netAddContribution env)).sum -
    (env.trans_remove.map (fun p => p.isize)).sum

-- ## Mirror transfer-rate probe (src/managers/pacman.rs,
-- test_mirror_speed_with_progress_impl)

/-- One read from the streamed response body: Ok with a byte count, or an
I/O error. -/
inductive SpeedReadEv where
  | ok (n : Nat)
  | err
deriving Repr, DecidableEq

/-- Environment of one transfer-rate probe run: client construction, request
send and HTTP status outcomes, the response content length, the read events
of the body stream, and the elapsed wall-clock duration in seconds measured
at the end of the loop. -/
structure SpeedEnv where
  client_ok : Bool
  send_ok : Bool
  status_success : Bool
  content_length : Option Nat
  reads : List SpeedReadEv
  elapsed : ℚ

/-- Read loop of the probe: Ok(0) ends the stream, Ok(n) accumulates
downloaded bytes and reports integer progress n*100/total when the total is
known, an error aborts the probe (first component none).  The second
component is the list of progress-callback percentages. -/
def speedLoop (total : Nat) : List SpeedReadEv → Nat → List Nat → Option Nat × List Nat
  | [], downloaded, progress => (some downloaded, progress)
  | SpeedReadEv.ok n :: rest, downloaded, progress =>
    if n = 0 then (some downloaded, progress)
    else
      let d := downloaded + n
      speedLoop total rest d (if 0 < total then progress ++ [d * 100 / total] else progress)
  | SpeedReadEv.err :: _, _, progress => (none, progress)

/-- managers/pacman.rs test_mirror_speed_with_progress_impl: absent when the
client cannot be built, the request fails, the status is not a success, a
body read fails, or the measured duration is not positive; otherwise
downloaded bytes / seconds / 1048576. -/
def test_mirror_speed_with_progress_impl (env : SpeedEnv) : Option ℚ × List Nat :=
  if !env.client_ok then (none, [])
  else if !env.send_ok then (none, [])
  else if !env.status_success then (none, [])
  else
    let total := env.content_length.getD 0
    match speedLoop total env.reads 0 [] with
    | (none, progress) => (none, progress)
    | (some downloaded, progress) =>
      if 0 < env.elapsed then (some ((downloaded : ℚ) / env.elapsed / 1048576), progress)
      else (none, progress)

-- ## Last full-system-upgrade age (src/pacman.rs, get_seconds_since_update)

/-- Rust char-separated split keeping empty segments. -/
def rustSplitChar (sep : Char) (l : List Char) : List (List Char) :=
  l.foldr
    (fun c acc =>
      if c = sep then [] :: acc
      else
        match acc with
        | [] => [[c]]
        | t :: ts => (c :: t) :: ts)
    [[]]

/-- Rust str::lines: split on newline, no trailing empty line for a trailing
newline, carriage returns stripped from line ends. -/
def rustLines (s : String) : List (List Char) :=
  match s.data with
  | [] => []
  | l =>
    let parts := rustSplitChar '\n' l
    let parts := if l.getLast? = some '\n' then parts.dropLast else parts
    parts.map (fun p => if p.getLast? = some '\r' then p.dropLast else p)

/-- Marker of the start of a full-system-upgrade transaction block. -/
def upgradeStartMarker : List Char := "starting full system upgrade".data

/-- Marker of a completed transaction. -/
def completedMarker : List Char := "transaction completed".data

/-- Timestamp extraction of get_seconds_since_update: the text before the
first closing bracket, with leading opening brackets removed. -/
def extractTimestamp (trimmed : List Char) : List Char :=
  (trimmed.takeWhile (fun c => c ≠ ']')).dropWhile (fun c => c = '[')

/-- Whether a log line (after trimming) contains the upgrade-start marker. -/
def isStartLine (line : List Char) : Bool :=
  listContains (trimChars line) upgradeStartMarker

/-- Whether a log line (after trimming) contains the completed marker. -/
def isCompletedLine (line : List Char) : Bool :=
  listContains (trimChars line) completedMarker

/-- Scanner state of get_seconds_since_update: saw_upgrade_start,
upgrade_start_timestamp and last_valid_timestamp. -/
structure LogScan where
  saw : Bool
  start : Option (List Char)
  lastValid : Option (List Char)
deriving Repr, DecidableEq

/-- One loop iteration of get_seconds_since_update: a start-marker line
records its timestamp and raises the flag, then a completed-marker line with
the flag raised commits the recorded timestamp and clears the flag. -/
def logStep (st : LogScan) (line : List Char) : LogScan :=
  let st1 : LogScan :=
    if isStartLine line then
      { st with saw := true, start := some (extractTimestamp (trimChars line)) }
    else st
  if st1.saw && isCompletedLine line then
    { saw := false, start := st1.start, lastValid := st1.start }
  else st1

/-- The scanner loop over all log lines. -/
def scanLog (lines : List (List Char)) : LogScan :=
  lines.foldl logStep ⟨false, none, none⟩

/-- The reformat of get_seconds_since_update: insert a colon after position
22 of the bracketed timestamp to make it RFC3339. -/
def fmtTimestamp (ts : List Char) : List Char :=
  ts.take 22 ++ ':' :: ts.drop 22

/-- pacman.rs get_seconds_since_update.  contents is the log file read
(none: the read failed and expect panics), parseTs models
DateTime::parse_from_rfc3339 composed with the conversion to epoch seconds,
now is the current epoch second.  The outer Option is panic-freedom: none
for the unreadable log, a timestamp shorter than the byte-slice bound, or a
failed parse (unwrap). -/
def get_seconds_since_update (contents : Option String)
    (parseTs : List Char → Option Int) (now : Int) : Option (Option Int) :=
  match contents with
  | none => none
  | some c =>
    let st := scanLog (rustLines c)
    match st.lastValid with
    | some ts =>
      if ts.length < 22 then none
      else
        match parseTs (fmtTimestamp ts) with
        | none => none
        | some t => some (some (max (now - t) 0))
    | none => some none

/-- Specification-side reading of the scanner: the timestamp of the latest
start-marker line that is followed (itself included) by a completed-marker
line, i.e. the start of the most recent completed full-system-upgrade
block. -/
def lastQualifyingStart : List (List Char) → Option (List Char)
  | [] => none
  | l :: rest =>
    match lastQualifyingStart rest with
    | some ts => some ts
    | none =>
      if isStartLine l && (isCompletedLine l || rest.any isCompletedLine)
      then some (extractTimestamp (trimChars l))
      else none

-- ## Line classifier and PTY session driver (src/pacman.rs)

/-- pacman.rs filter_upgrade_line: suppress empty lines, the size-summary
lines and the dependency-resolution banners; keep everything else. -/
def filter_upgrade_line (line : List Char) : Bool :=
  let clean := stripAnsiAux false line
  let trimmed := trimChars clean
  if trimmed.isEmpty then false
  else if listContains trimmed "Total Download Size:".data ||
      listContains trimmed "Total Installed Size:".data ||
      listContains trimmed "Net Upgrade Size:".data then false
  else if listContains trimmed "resolving dependencies".data ||
      listContains trimmed "looking for conflicting packages".data ||
      listContains trimmed ":: Starting full system upgrade...".data then false
  else true

/-- pacman.rs should_print: with filtering disabled every line is kept. -/
def should_print (line : List Char) (filterOn : Bool) : Bool :=
  if filterOn then filter_upgrade_line line else true

/-- The prompt signature check of run_pacman_pty: a yes/no confirmation
suffix, or a buffer containing a double-colon marker ending in a labeled
prompt. -/
def isPromptBuffer (buf : List Char) : Bool :=
  "[Y/n] ".data.isSuffixOf buf ||
    (listContains buf "::".data && "]: ".data.isSuffixOf buf)

/-- State threaded through the PTY read loop: the partial-line buffer, the
lines printed so far, the remaining operator input lines, and the lines
forwarded into the subprocess. -/
structure PtyState where
  line_buffer : List Char
  output : List (List Char)
  stdin_lines : List (List Char)
  sent : List (List Char)
deriving Repr, DecidableEq

/-- Per-character processing of run_pacman_pty: newline flushes the buffer
as a printed line (when kept by the classifier), carriage return flushes a
nonempty buffer as an in-place redraw, any other character accumulates and
may complete an interactive-prompt signature, which prints the prompt,
reads one operator line and forwards it trimmed into the subprocess. -/
def ptyChar (filterOn : Bool) (st : PtyState) (ch : Char) : PtyState :=
  if ch = '\n' then
    let out := if should_print st.line_buffer filterOn
      then st.output ++ [st.line_buffer] else st.output
    { st with line_buffer := [], output := out }
  else if ch = '\r' then
    let out := if !st.line_buffer.isEmpty && should_print st.line_buffer filterOn
      then st.output ++ [st.line_buffer] else st.output
    { st with line_buffer := [], output := out }
  else
    let buf := st.line_buffer ++ [ch]
    if isPromptBuffer buf then
      let out := if should_print buf filterOn then st.output ++ [buf] else st.output
      match st.stdin_lines with
      | [] => { st with line_buffer := [], output := out }
      | i :: rest =>
        { line_buffer := [], output := out, stdin_lines := rest,
          sent := st.sent ++ [trimChars i] }
    else { st with line_buffer := buf }

/-- A chunk of bytes decoded lossily to text and scanned character by
character. -/
def ptyChunk (filterOn : Bool) (st : PtyState) (chunk : List Char) : PtyState :=
  chunk.foldl (ptyChar filterOn) st

/-- One observation of the polling loop body: the liveness check result,
and when the process is alive the outcome of the non-blocking read. -/
inductive ReadRes where
  | okZero
  | okChunk (chunk : List Char)
  | errTransient
  | errFatal
deriving Repr, DecidableEq

inductive PtyEv where
  | aliveTrue (r : ReadRes)
  | aliveFalse
  | aliveErr
deriving Repr, DecidableEq

/-- The final flush of run_pacman_pty: a nonempty remaining buffer is
printed when the classifier keeps it. -/
def ptyFlushFinal (filterOn : Bool) (st : PtyState) : PtyState :=
  if !st.line_buffer.isEmpty && should_print st.line_buffer filterOn
  then { st with output := st.output ++ [st.line_buffer] }
  else st

/-- The run_pacman_pty polling loop over a finite event trace.  none means
the trace ended with the loop still polling (an unobserved, still-running
session); every observed exit is Ok: process death (with a final flush), a
liveness-check error (immediate return), or a non-transient read error
(break, then final flush); transient read errors and empty reads just
continue. -/
def ptyLoop (filterOn : Bool) : List PtyEv → PtyState → Option (Except String Unit × PtyState)
  | [], _ => none
  | PtyEv.aliveFalse :: _, st => some (Except.ok (), ptyFlushFinal filterOn st)
  | PtyEv.aliveErr :: _, st => some (Except.ok (), st)
  | PtyEv.aliveTrue r :: rest, st =>
    match r with
    | ReadRes.okZero => ptyLoop filterOn rest st
    | ReadRes.okChunk chunk => ptyLoop filterOn rest (ptyChunk filterOn st chunk)
    | ReadRes.errTransient => ptyLoop filterOn rest st
    | ReadRes.errFatal => some (Except.ok (), ptyFlushFinal filterOn st)

/-- pacman.rs run_pacman_pty: a failed spawn is the only error, carrying the
underlying cause in its message; otherwise the loop result. -/
def run_pacman_pty (args : List String) (filterOn : Bool)
    (spawn_res : Except String Unit) (trace : List PtyEv)
    (stdin_lines : List (List Char)) : Option (Except String Unit × PtyState) :=
  match spawn_res with
  | Except.error e =>
    some (Except.error ("Failed to spawn pacman: " ++ e), ⟨[], [], stdin_lines, []⟩)
  | Except.ok _ => ptyLoop filterOn trace ⟨[], [], stdin_lines, []⟩

-- ## Database sync loop (src/pacman.rs, run_pacman_sync)

/-- State of the sync read loop: the progress tracker and the partial-line
buffer. -/
structure SyncState where
  progress : SyncProgress
  line_buffer : List Char
deriving Repr, DecidableEq

/-- Per-character processing of run_pacman_sync: both newline and carriage
return terminate a line, a nonempty line feeds the progress tracker. -/
def syncChar (st : SyncState) (ch : Char) : SyncState :=
  if ch = '\n' || ch = '\r' then
    if st.line_buffer.isEmpty then { st with line_buffer := [] }
    else
      { progress := st.progress.update_from_line (String.mk st.line_buffer),
        line_buffer := [] }
  else { st with line_buffer := st.line_buffer ++ [ch] }

/-- The run_pacman_sync polling loop over a finite event trace; none means
the trace ended while still polling.  On process death a nonempty remaining
buffer feeds the tracker one last time. -/
def syncLoop : List PtyEv → SyncState → Option SyncState
  | [], _ => none
  | PtyEv.aliveFalse :: _, st =>
    some (if st.line_buffer.isEmpty then st
      else { st with progress := st.progress.update_from_line (String.mk st.line_buffer) })
  | PtyEv.aliveErr :: _, st => some st
  | PtyEv.aliveTrue r :: rest, st =>
    match r with
    | ReadRes.okZero => syncLoop rest st
    | ReadRes.okChunk chunk => syncLoop rest (chunk.foldl syncChar st)
    | ReadRes.errTransient => syncLoop rest st
    | ReadRes.errFatal => some st

/-- Observable side effects of the root-gated operations: subprocess
spawns. -/
inductive Action where
  | spawn (cmd : String)
deriving Repr, DecidableEq

/-- pacman.rs run_pacman_sync: the root check comes before the spawn; a
spawn failure is an error carrying the cause; otherwise the loop runs and
the operation returns Ok.  The Action list records every subprocess spawn
attempted. -/
def run_pacman_sync (is_root : Bool) (spawn_res : Except String Unit)
    (trace : List PtyEv) : Option (Except String Unit) × List Action :=
  if !is_root then
    (some (Except.error "Database sync requires root, rerun with sudo"), [])
  else
    match spawn_res with
    | Except.error e =>
      (some (Except.error ("Failed to spawn pacman: " ++ e)), [Action.spawn "pacman -Sy"])
    | Except.ok _ =>
      match syncLoop trace ⟨SyncProgress.new, []⟩ with
      | none => (none, [Action.spawn "pacman -Sy"])
      | some _ => (some (Except.ok ()), [Action.spawn "pacman -Sy"])

/-- pacman.rs sync_databases. -/
def sync_databases (is_root : Bool) (spawn_res : Except String Unit)
    (trace : List PtyEv) : Option (Except String Unit) × List Action :=
  run_pacman_sync is_root spawn_res trace

-- ## Remaining probes and the stats aggregator (src/pacman.rs, get_stats)

/-- An installed package as the orphan scan sees it. -/
structure OrphanPkg where
  isize : Int
  reason_depend : Bool
  required_by_empty : Bool
  optional_for_empty : Bool

/-- Environment of the orphan probe. -/
structure OrphanEnv where
  handle_ok : Bool
  localpkgs : List OrphanPkg

/-- pacman.rs get_orphaned_packages: absent when the database handle cannot
be opened, otherwise the count and total MiB size of dependency-installed
packages required by nothing and optional for nothing. -/
def get_orphaned_packages (env : OrphanEnv) : Option Nat × Option ℚ :=
  if !env.handle_ok then (none, none)
  else
    let orphans := env.localpkgs.filter
      (fun p => p.reason_depend && p.required_by_empty && p.optional_for_empty)
    let total_size : Int := (orphans.map (fun p => p.isize)).sum
    (some orphans.length, some ((total_size : ℚ) / 1048576))

/-- One directory entry of the package cache. -/
structure CacheEntry where
  is_file : Bool
  len : Nat

/-- pacman.rs get_cache_size: absent when the directory cannot be read,
otherwise the MiB sum of the plain files inside. -/
def get_cache_size (dir : Option (List CacheEntry)) : Option ℚ :=
  match dir with
  | some entries =>
    let total : Nat := ((entries.filter (fun e => e.is_file)).map (fun e => e.len)).sum
    some ((total : ℚ) / 1048576)
  | none => none

/-- Rust str::strip_prefix. -/
def stripPrefixList (pre l : List Char) : Option (List Char) :=
  if pre.isPrefixOf l then some (l.drop pre.length) else none

/-- The prefix of l before the first occurrence of pat (all of l when pat
does not occur): split(pat).next(). -/
def takeUntilSubstr (pat : List Char) : List Char → List Char
  | [] => []
  | c :: t => if pat.isPrefixOf (c :: t) then [] else c :: takeUntilSubstr pat t

/-- The mirrorlist scan of get_mirror_url: the first trimmed line starting
with the Server prefix yields its URL up to the repository placeholder. -/
def firstServerLine : List (List Char) → Option String
  | [] => none
  | line :: rest =>
    let trimmed := trimChars line
    if "Server = ".data.isPrefixOf trimmed then
      match stripPrefixList "Server = ".data trimmed with
      | some url => some (String.mk (takeUntilSubstr "/$repo".data url))
      | none => none
    else firstServerLine rest

/-- pacman.rs get_mirror_url: absent when the mirrorlist cannot be read or
holds no Server entry. -/
def get_mirror_url (contents : Option String) : Option String :=
  match contents with
  | none => none
  | some c => firstServerLine (rustLines c)

/-- The suffix of l from the first occurrence of pat: find + slice. -/
def dropBeforeSubstr (pat : List Char) : List Char → Option (List Char)
  | [] => if pat.isEmpty then some [] else none
  | c :: t => if pat.isPrefixOf (c :: t) then some (c :: t) else dropBeforeSubstr pat t

/-- The stdout scan of get_pacman_version: the first line naming both the
manager and its backing library yields the trimmed text from the version
token on. -/
def versionFromLines : List (List Char) → Option String
  | [] => none
  | line :: rest =>
    if listContains line "Pacman v".data && listContains line "libalpm v".data then
      match dropBeforeSubstr "Pacman v".data line with
      | some version_str => some (String.mk (trimChars version_str))
      | none => versionFromLines rest
    else versionFromLines rest

/-- pacman.rs get_pacman_version: absent when the invocation fails or no
line matches. -/
def get_pacman_version (output : Option String) : Option String :=
  match output with
  | none => none
  | some out => versionFromLines (rustLines out)

/-- pacman.rs get_installed_count: the line count of the query output;
none models the unwrap panic when the subprocess invocation fails. -/
def get_installed_count (output : Option String) : Option Nat :=
  match output with
  | none => none
  | some out => some (rustLines out).length

/-- stats.rs StatId. -/
inductive StatId where
  | Installed
  | Upgradable
  | LastUpdate
  | DownloadSize
  | InstalledSize
  | NetUpgradeSize
  | OrphanedPackages
  | CacheSize
  | MirrorUrl
  | MirrorHealth
deriving DecidableEq, Repr

/-- stats.rs needs_upgrade_stats. -/
def needs_upgrade_stats (requested : List StatId) : Bool :=
  requested.any fun s =>
    match s with
    | StatId.Upgradable | StatId.DownloadSize | StatId.InstalledSize
    | StatId.NetUpgradeSize => true
    | _ => false

/-- stats.rs needs_orphan_stats. -/
def needs_orphan_stats (requested : List StatId) : Bool :=
  requested.contains StatId.OrphanedPackages

/-- stats.rs needs_mirror_health. -/
def needs_mirror_health (requested : List StatId) : Bool :=
  requested.contains StatId.MirrorHealth

/-- stats.rs needs_mirror_url. -/
def needs_mirror_url (requested : List StatId) : Bool :=
  requested.contains StatId.MirrorUrl || needs_mirror_health requested

/-- Instrumentation: the probes get_stats can run, in the order the source
runs them. -/
inductive Probe where
  | upgrade
  | orphan
  | mirrorUrl
  | mirrorSync
  | installed
  | lastUpdate
  | cacheSize
  | version
deriving DecidableEq, Repr

/-- Environment of one get_stats call: one sub-environment or oracle per
probe.  checkSync models check_mirror_sync (a network call). -/
structure StatsEnv where
  alpm : AlpmEnv
  orphan : OrphanEnv
  mirrorlist : Option String
  checkSync : String → Option ℚ
  pacmanQ_output : Option String
  log_contents : Option String
  parseTs : List Char → Option Int
  now : Int
  cache_dir : Option (List CacheEntry)
  version_output : Option String

/-- Steps 4-7 of get_stats: installed count and last-update age (either can
panic), cache size, the ungated version probe, and the join of the
mirror-sync worker result. -/
def get_stats_tail (requested : List StatId) (env : StatsEnv) (s3 : ManagerStats)
    (p3 : List Probe) (sync_handle : Option (Option ℚ)) :
    Option (ManagerStats × List Probe) :=
  let step4 : Option (ManagerStats × List Probe) :=
    if requested.contains StatId.Installed then
      match get_installed_count env.pacmanQ_output with
      | none => none
      | some n => some ({ s3 with total_installed := n }, p3 ++ [Probe.installed])
    else some (s3, p3)
  match step4 with
  | none => none
  | some (s4, p4) =>
    let step5 : Option (ManagerStats × List Probe) :=
      if requested.contains StatId.LastUpdate then
        match get_seconds_since_update env.log_contents env.parseTs env.now with
        | none => none
        | some r => some ({ s4 with days_since_last_update := r }, p4 ++ [Probe.lastUpdate])
      else some (s4, p4)
    match step5 with
    | none => none
    | some (s5, p5) =>
      let (s6, p6) :=
        if requested.contains StatId.CacheSize then
          ({ s5 with cache_size_mb := get_cache_size env.cache_dir },
            p5 ++ [Probe.cacheSize])
        else (s5, p5)
      let s7 := { s6 with pacman_version := get_pacman_version env.version_output }
      let p7 := p6 ++ [Probe.version]
      match sync_handle with
      | some r => some ({ s7 with mirror_sync_age_hours := r }, p7)
      | none => some (s7, p7)

/-- pacman.rs get_stats over the probe environment, instrumented with the
list of probes run.  The upgrade and orphan probes run first when needed,
then the mirror URL probe with the sync-age probe handed to a worker when
mirror health is requested, then the per-field gated local probes, the
ungated version probe, and the worker join.  none models a panic inside a
probe (see get_installed_count and get_seconds_since_update). -/
def get_stats (requested : List StatId) (env : StatsEnv) :
    Option (ManagerStats × List Probe) :=
  let s0 : ManagerStats := {}
  let step1 : ManagerStats × List Probe :=
    if needs_upgrade_stats requested then
      let u := get_upgrade_sizes env.alpm
      ({ s0 with total_upgradable := u.package_count,
                 download_size_mb := u.download_size_mb,
                 total_installed_size_mb := u.installed_size_mb,
                 net_upgrade_size_mb := u.net_upgrade_size_mb },
        [Probe.upgrade])
    else (s0, [])
  let step2 : ManagerStats × List Probe :=
    if needs_orphan_stats requested then
      let o := get_orphaned_packages env.orphan
      ({ step1.1 with orphaned_packages := o.1, orphaned_size_mb := o.2 },
        step1.2 ++ [Probe.orphan])
    else step1
  let step3 : (ManagerStats × List Probe) × Option (Option ℚ) :=
    if needs_mirror_url requested then
      let s := { step2.1 with mirror_url := get_mirror_url env.mirrorlist }
      if needs_mirror_health requested then
        ((s, step2.2 ++ [Probe.mirrorUrl, Probe.mirrorSync]),
          some (s.mirror_url.bind env.checkSync))
      else ((s, step2.2 ++ [Probe.mirrorUrl]), none)
    else (step2, none)
  get_stats_tail requested env step3.1.1 step3.1.2 step3.2

-- ## upgrade_system (src/pacman.rs)

/-- pacman.rs upgrade_system: the root check comes first, then the optional
database sync, the stats gathering and display, and the interactive
full-upgrade session.  The Action list records subprocess spawns; the
Option result is none when a sub-step diverges or panics. -/
def upgrade_system (is_root text_mode sync_first : Bool)
    (sync_spawn : Except String Unit) (sync_trace : List PtyEv)
    (requested : List StatId) (env : StatsEnv)
    (pty_spawn : Except String Unit) (pty_trace : List PtyEv)
    (stdin_lines : List (List Char)) :
    Option (Except String Unit) × List Action :=
  if !is_root then
    (some (Except.error "System upgrade requires root, rerun with sudo"), [])
  else
    let syncStep : Option (Except String Unit) × List Action :=
      if sync_first then run_pacman_sync is_root sync_spawn sync_trace
      else (some (Except.ok ()), [])
    match syncStep with
    | (none, acts) => (none, acts)
    | (some (Except.error e), acts) => (some (Except.error e), acts)
    | (some (Except.ok _), acts) =>
      match get_stats requested env with
      | none => (none, acts)
      | some _ =>
        match run_pacman_pty ["-Su"] true pty_spawn pty_trace stdin_lines with
        | none => (none, acts ++ [Action.spawn "pacman -Su"])
        | some (r, _) => (some r, acts ++ [Action.spawn "pacman -Su"])

-- ### Theorems for strip_ansi (claim C9)

theorem escChar_not_mem_stripAnsiAux (b : Bool) (l : List Char) :
    escChar ∉ stripAnsiAux b l := by
  induction l generalizing b with
  | nil => simp [stripAnsiAux]
  | cons c cs ih =>
    by_cases hc : c = escChar
    · simpa [stripAnsiAux, hc] using ih true
    · cases b with
      | true =>
        by_cases hm : c = 'm'
        · simpa [stripAnsiAux, hc, hm] using ih false
        · simpa [stripAnsiAux, hc, hm] using ih true
      | false =>
        simp only [stripAnsiAux, if_neg hc, Bool.false_eq_true, if_false, List.mem_cons]
        rintro (h | h)
        · exact hc h.symm
        · exact ih false h

theorem stripAnsiAux_id_of_no_esc (l : List Char) (h : escChar ∉ l) :
    stripAnsiAux false l = l := by
  induction l with
  | nil => rfl
  | cons c cs ih =>
    have hc : c ≠ escChar := fun hcc => h (hcc ▸ List.mem_cons_self c cs)
    have hcs : escChar ∉ cs := fun hm => h (List.mem_cons_of_mem c hm)
    simp [stripAnsiAux, hc, ih hcs]

/-- C9: ANSI normalization is idempotent — for every input string s,
strip_ansi (strip_ansi s) = strip_ansi s. -/
theorem strip_ansi_idempotent (s : String) :
    strip_ansi (strip_ansi s) = strip_ansi s := by
  unfold strip_ansi
  exact congrArg String.mk
    (stripAnsiAux_id_of_no_esc _ (escChar_not_mem_stripAnsiAux false s.data))

-- ### Theorems for SyncProgress (claim C3)

theorem prefix_firstChar {a b : Char} {l1 l2 t : List Char}
    (h1 : List.isPrefixOf (a :: l1) t = true) (h2 : List.isPrefixOf (b :: l2) t = true) :
    a = b := by
  cases t with
  | nil => simp [List.isPrefixOf] at h1
  | cons c cs =>
    simp [List.isPrefixOf] at h1 h2
    exact h1.1.trans h2.1.symm

/-- C3: Sync Progress Tracker update on one line: an "is up to date" line
(after ANSI-stripping and trimming) starting with a known database name sets
exactly that slot to Complete leaving the other two unchanged; otherwise a
line whose first whitespace token is a known name and whose last token is a
percentage NN% with NN parseable as u8 sets that slot to Syncing NN when
NN < 100 and to Complete when NN is 100 or more; lines with an unknown first
token and lines matching neither rule leave the state unchanged. -/
theorem sync_update_from_line_spec (s : SyncProgress) (line : String)
    (t : List Char) (parts : List (List Char))
    (ht : t = trimChars (strip_ansi line).data)
    (hparts : parts = splitWhitespace t) :
    (listContains t "is up to date".data = true →
      ("core".data.isPrefixOf t = true →
        s.update_from_line line = { s with core := DbSyncState.Complete }) ∧
      ("extra".data.isPrefixOf t = true →
        s.update_from_line line = { s with extra := DbSyncState.Complete }) ∧
      ("multilib".data.isPrefixOf t = true →
        s.update_from_line line = { s with multilib := DbSyncState.Complete }) ∧
      ("core".data.isPrefixOf t = false → "extra".data.isPrefixOf t = false →
        "multilib".data.isPrefixOf t = false → s.update_from_line line = s)) ∧
    (listContains t "is up to date".data = false →
      (∀ nm lastTok ds pct,
        parts.head? = some nm → parts.getLast? = some lastTok →
        stripSuffixChar '%' lastTok = some ds → parseU8 ds = some pct →
        ((nm = "core".data → s.update_from_line line =
            { s with core :=
                if 100 ≤ pct then DbSyncState.Complete else DbSyncState.Syncing pct }) ∧
         (nm = "extra".data → s.update_from_line line =
            { s with extra :=
                if 100 ≤ pct then DbSyncState.Complete else DbSyncState.Syncing pct }) ∧
         (nm = "multilib".data → s.update_from_line line =
            { s with multilib :=
                if 100 ≤ pct then DbSyncState.Complete else DbSyncState.Syncing pct }) ∧
         (nm ≠ "core".data → nm ≠ "extra".data → nm ≠ "multilib".data →
            s.update_from_line line = s))) ∧
      (parts = [] → s.update_from_line line = s) ∧
      (∀ lastTok, parts.getLast? = some lastTok →
        stripSuffixChar '%' lastTok = none → s.update_from_line line = s) ∧
      (∀ lastTok ds, parts.getLast? = some lastTok →
        stripSuffixChar '%' lastTok = some ds → parseU8 ds = none →
        s.update_from_line line = s)) := by
  subst ht
  subst hparts
  constructor
  · intro hct
    have hcoreL : "core".data = 'c' :: "ore".data := rfl
    have hextraL : "extra".data = 'e' :: "xtra".data := rfl
    have hmultiL : "multilib".data = 'm' :: "ultilib".data := rfl
    refine ⟨?_, ?_, ?_, ?_⟩
    · intro h1
      simp [SyncProgress.update_from_line, hct, h1]
    · intro h1
      have hcf : "core".data.isPrefixOf (trimChars (strip_ansi line).data) = false := by
        cases hcp : "core".data.isPrefixOf (trimChars (strip_ansi line).data) with
        | false => rfl
        | true =>
          rw [hcoreL] at hcp
          rw [hextraL] at h1
          exact absurd (prefix_firstChar h1 hcp) (by decide)
      simp [SyncProgress.update_from_line, hct, hcf, h1]
    · intro h1
      have hcf : "core".data.isPrefixOf (trimChars (strip_ansi line).data) = false := by
        cases hcp : "core".data.isPrefixOf (trimChars (strip_ansi line).data) with
        | false => rfl
        | true =>
          rw [hcoreL] at hcp
          rw [hmultiL] at h1
          exact absurd (prefix_firstChar h1 hcp) (by decide)
      have hef : "extra".data.isPrefixOf (trimChars (strip_ansi line).data) = false := by
        cases hep : "extra".data.isPrefixOf (trimChars (strip_ansi line).data) with
        | false => rfl
        | true =>
          rw [hextraL] at hep
          rw [hmultiL] at h1
          exact absurd (prefix_firstChar h1 hep) (by decide)
      simp [SyncProgress.update_from_line, hct, hcf, hef, h1]
    · intro h1 h2 h3
      simp [SyncProgress.update_from_line, hct, h1, h2, h3]
  · intro hctf
    refine ⟨?_, ?_, ?_, ?_⟩
    · intro nm lastTok ds pct hhead hlast hstrip hparse
      cases hsp : splitWhitespace (trimChars (strip_ansi line).data) with
      | nil =>
        rw [hsp] at hhead
        exact absurd hhead (by simp)
      | cons db rest =>
        rw [hsp] at hhead hlast
        have hdb : db = nm := by simpa using hhead
        cases rest with
        | nil =>
          have hlt : lastTok = nm := by
            rw [← hdb]
            simpa using hlast.symm
          subst hlt
          subst hdb
          refine ⟨?_, ?_, ?_, ?_⟩
          · intro h
            rw [h] at hstrip
            have : stripSuffixChar '%' "core".data = none := by decide
            rw [this] at hstrip
            cases hstrip
          · intro h
            rw [h] at hstrip
            have : stripSuffixChar '%' "extra".data = none := by decide
            rw [this] at hstrip
            cases hstrip
          · intro h
            rw [h] at hstrip
            have : stripSuffixChar '%' "multilib".data = none := by decide
            rw [this] at hstrip
            cases hstrip
          · intro h1 h2 h3
            simp [SyncProgress.update_from_line, hctf, hsp]
        | cons b r' =>
          have hlast' : (b :: r').getLast? = some lastTok := by
            rw [← List.getLast?_cons_cons]
            exact hlast
          subst hdb
          refine ⟨?_, ?_, ?_, ?_⟩
          · intro h
            simp [SyncProgress.update_from_line, hctf, hsp, hlast', hstrip, hparse, h]
          · intro h
            have hne : db ≠ "core".data := by
              rw [h]
              decide
            simp [SyncProgress.update_from_line, hctf, hsp, hlast', hstrip, hparse, h, hne]
          · intro h
            have hne1 : db ≠ "core".data := by
              rw [h]
              decide
            have hne2 : db ≠ "extra".data := by
              rw [h]
              decide
            simp [SyncProgress.update_from_line, hctf, hsp, hlast', hstrip, hparse, h, hne1, hne2]
          · intro h1 h2 h3
            simp [SyncProgress.update_from_line, hctf, hsp, hlast', hstrip, hparse, h1, h2, h3]
    · intro hnil
      simp [SyncProgress.update_from_line, hctf, hnil]
    · intro lastTok hlast hstrip
      cases hsp : splitWhitespace (trimChars (strip_ansi line).data) with
      | nil =>
        rw [hsp] at hlast
        exact absurd hlast (by simp)
      | cons db rest =>
        rw [hsp] at hlast
        cases rest with
        | nil => simp [SyncProgress.update_from_line, hctf, hsp]
        | cons b r' =>
          have hlast' : (b :: r').getLast? = some lastTok := by
            rw [← List.getLast?_cons_cons]
            exact hlast
          simp [SyncProgress.update_from_line, hctf, hsp, hlast', hstrip]
    · intro lastTok ds hlast hstrip hparse
      cases hsp : splitWhitespace (trimChars (strip_ansi line).data) with
      | nil =>
        rw [hsp] at hlast
        exact absurd hlast (by simp)
      | cons db rest =>
        rw [hsp] at hlast
        cases rest with
        | nil => simp [SyncProgress.update_from_line, hctf, hsp]
        | cons b r' =>
          have hlast' : (b :: r').getLast? = some lastTok := by
            rw [← List.getLast?_cons_cons]
            exact hlast
          simp [SyncProgress.update_from_line, hctf, hsp, hlast', hstrip, hparse]

theorem sync_update_from_line_spec_witness :
    SyncProgress.new.update_from_line "extra 57%" =
      { SyncProgress.new with extra := DbSyncState.Syncing 57 } := by
  have h := (sync_update_from_line_spec SyncProgress.new "extra 57%" _ _ rfl rfl).2
    (by decide)
  have h2 := (h.1 "extra".data "57%".data "57".data 57 (by decide) (by decide)
    (by decide) (by decide)).2.1 rfl
  rw [if_neg (by decide)] at h2
  exact h2

example : SyncProgress.new.update_from_line "extra 57%" =
    ⟨DbSyncState.Syncing 0, DbSyncState.Syncing 57, DbSyncState.Syncing 0⟩ := by decide
example : SyncProgress.new.update_from_line "core is up to date" =
    ⟨DbSyncState.Complete, DbSyncState.Syncing 0, DbSyncState.Syncing 0⟩ := by decide
example : SyncProgress.new.update_from_line "multilib 100%" =
    ⟨DbSyncState.Syncing 0, DbSyncState.Syncing 0, DbSyncState.Complete⟩ := by decide
example : SyncProgress.new.update_from_line "foo 50%" = SyncProgress.new := by decide
example : SyncProgress.new.update_from_line " core               123.4 KiB   99%" =
    ⟨DbSyncState.Syncing 99, DbSyncState.Syncing 0, DbSyncState.Syncing 0⟩ := by decide

-- ### Theorems for get_upgrade_sizes (claims C2, C7)

theorem foldl_add_int (f : Pkg → Int) (l : List Pkg) (init : Int) :
    l.foldl (fun acc p => acc + f p) init = init + (l.map f).sum := by
  induction l generalizing init with
  | nil => simp
  | cons p ps ih =>
    simp only [List.foldl_cons, List.map_cons, List.sum_cons, ih]
    ring

theorem foldl_sub_int (f : Pkg → Int) (l : List Pkg) (init : Int) :
    l.foldl (fun acc p => acc - f p) init = init - (l.map f).sum := by
  induction l generalizing init with
  | nil => simp
  | cons p ps ih =>
    simp only [List.foldl_cons, List.map_cons, List.sum_cons, ih]
    ring

theorem foldl_netAdd (env : AlpmEnv) (l : List Pkg) (init : Int) :
    l.foldl
      (fun acc p =>
        match env.localdb p.name with
        | some old_size => acc + (p.isize - old_size)
        | none => acc + p.isize)
      init = init + (l.map (netAddContribution env)).sum := by
  induction l generalizing init with
  | nil => simp
  | cons p ps ih =>
    simp only [List.foldl_cons, List.map_cons, List.sum_cons]
    cases hdb : env.localdb p.name with
    | none => simp only [netAddContribution, hdb, ih]; ring
    | some old => simp only [netAddContribution, hdb, ih]; ring

/-- C2: the upgrade-transaction summary is all-or-nothing: if any simulation
stage fails every size field of the summary is absent, if all stages succeed
all three are present, and the three size fields are always either all
absent or all present. -/
theorem get_upgrade_sizes_all_or_nothing (env : AlpmEnv) :
    ((env.handle_ok = false ∨ env.trans_init_ok = false ∨ env.sysupgrade_ok = false ∨
        env.prepare_ok = false) →
      (get_upgrade_sizes env).download_size_mb = none ∧
      (get_upgrade_sizes env).installed_size_mb = none ∧
      (get_upgrade_sizes env).net_upgrade_size_mb = none) ∧
    ((env.handle_ok = true ∧ env.trans_init_ok = true ∧ env.sysupgrade_ok = true ∧
        env.prepare_ok = true) →
      ∃ a b c, (get_upgrade_sizes env).download_size_mb = some a ∧
        (get_upgrade_sizes env).installed_size_mb = some b ∧
        (get_upgrade_sizes env).net_upgrade_size_mb = some c) ∧
    (((get_upgrade_sizes env).download_size_mb = none ↔
        (get_upgrade_sizes env).installed_size_mb = none) ∧
      ((get_upgrade_sizes env).installed_size_mb = none ↔
        (get_upgrade_sizes env).net_upgrade_size_mb = none)) := by
  cases h1 : env.handle_ok <;> cases h2 : env.trans_init_ok <;>
    cases h3 : env.sysupgrade_ok <;> cases h4 : env.prepare_ok <;>
    simp [get_upgrade_sizes, h1, h2, h3, h4]

theorem get_upgrade_sizes_all_or_nothing_witness :
    (get_upgrade_sizes ⟨false, true, true, true, [], [], fun _ => none⟩).download_size_mb =
        none ∧
    (∃ a b c,
      (get_upgrade_sizes ⟨true, true, true, true, [], [], fun _ => none⟩).download_size_mb =
          some a ∧
      (get_upgrade_sizes ⟨true, true, true, true, [], [], fun _ => none⟩).installed_size_mb =
          some b ∧
      (get_upgrade_sizes ⟨true, true, true, true, [], [], fun _ => none⟩).net_upgrade_size_mb =
          some c) :=
  ⟨((get_upgrade_sizes_all_or_nothing ⟨false, true, true, true, [], [], fun _ => none⟩).1
      (Or.inl rfl)).1,
    ((get_upgrade_sizes_all_or_nothing ⟨true, true, true, true, [], [], fun _ => none⟩).2.1
      ⟨rfl, rfl, rfl, rfl⟩)⟩

/-- C7: in a successful run the reported net size is the spec formula (per
added package new-minus-old for upgrades, full size for new installs, minus
removed sizes), converted to MiB, with results inside (-0.01, 0.01)
normalized to exactly 0; for a single pure new install the raw net equals
its installed size (so the reported net equals the reported installed size
up to that normalization), and for a removal-only transaction the raw net is
the negative of the removed size. -/
theorem net_upgrade_size_formula (env : AlpmEnv)
    (h : env.handle_ok = true ∧ env.trans_init_ok = true ∧ env.sysupgrade_ok = true ∧
      env.prepare_ok = true) :
    ((get_upgrade_sizes env).net_upgrade_size_mb =
      some
        (if -1 / 100 < (netSizeSpec env : ℚ) / 1048576 ∧
            (netSizeSpec env : ℚ) / 1048576 < 1 / 100
          then 0 else (netSizeSpec env : ℚ) / 1048576)) ∧
    (∀ p, env.trans_add = [p] → env.localdb p.name = none → env.trans_remove = [] →
      netSizeSpec env = p.isize ∧
      (get_upgrade_sizes env).installed_size_mb = some ((p.isize : ℚ) / 1048576)) ∧
    (env.trans_add = [] →
      netSizeSpec env = -(env.trans_remove.map (fun p => p.isize)).sum) := by
  obtain ⟨h1, h2, h3, h4⟩ := h
  refine ⟨?_, ?_, ?_⟩
  · simp only [get_upgrade_sizes, h1, h2, h3, h4, Bool.not_true, Bool.false_eq_true,
      if_false, foldl_netAdd, foldl_sub_int, netSizeSpec]
    norm_num
  · intro p hadd hdb hrem
    constructor
    · simp [netSizeSpec, netAddContribution, hadd, hdb, hrem]
    · simp [get_upgrade_sizes, h1, h2, h3, h4, hadd]
  · intro hadd
    simp [netSizeSpec, hadd]

theorem net_upgrade_size_formula_witness :
    (get_upgrade_sizes
        ⟨true, true, true, true, [⟨"newpkg", 5242880, 10485760⟩], [], fun _ => none⟩
      ).net_upgrade_size_mb = some 10 ∧
    (get_upgrade_sizes
        ⟨true, true, true, true, [⟨"newpkg", 5242880, 10485760⟩], [], fun _ => none⟩
      ).installed_size_mb = some 10 := by
  have h := net_upgrade_size_formula
    ⟨true, true, true, true, [⟨"newpkg", 5242880, 10485760⟩], [], fun _ => none⟩
    ⟨rfl, rfl, rfl, rfl⟩
  constructor
  · rw [h.1]
    norm_num [netSizeSpec, netAddContribution]
  · rw [(h.2.1 ⟨"newpkg", 5242880, 10485760⟩ rfl rfl rfl).2]
    norm_num


-- ### Theorems for the transfer-rate probe (claim C8)

theorem speedLoop_err (total : Nat) (pre post : List SpeedReadEv) :
    ∀ (d : Nat) (p : List Nat),
    (∀ e ∈ pre, ∀ n, e = SpeedReadEv.ok n → n ≠ 0) →
    (speedLoop total (pre ++ SpeedReadEv.err :: post) d p).1 = none := by
  induction pre with
  | nil =>
    intro d p _
    rfl
  | cons e rest ih =>
    intro d p hpre
    cases e with
    | err => rfl
    | ok n =>
      have hn : n ≠ 0 := hpre (SpeedReadEv.ok n) (List.mem_cons_self _ _) n rfl
      simp only [List.cons_append, speedLoop, if_neg hn]
      exact ih _ _ (fun e he n' hn' => hpre e (List.mem_cons_of_mem _ he) n' hn')

/-- C8: the mirror transfer-rate probe reports absent for a zero-duration
transfer (never dividing by zero); absent on any network failure or
non-success HTTP status — a failed request, a non-success status, or a
body-read failure reached mid-stream (every earlier read a nonzero
success); and a rate of exactly 1 for 1048576 bytes downloaded over exactly
1 second. -/
theorem mirror_speed_spec :
    (∀ env : SpeedEnv, env.elapsed = 0 →
      (test_mirror_speed_with_progress_impl env).1 = none) ∧
    (∀ env : SpeedEnv, env.send_ok = false ∨ env.status_success = false →
      (test_mirror_speed_with_progress_impl env).1 = none) ∧
    (∀ env : SpeedEnv, ∀ pre post, env.reads = pre ++ SpeedReadEv.err :: post →
      (∀ e ∈ pre, ∀ n, e = SpeedReadEv.ok n → n ≠ 0) →
      (test_mirror_speed_with_progress_impl env).1 = none) ∧
    (∀ env : SpeedEnv, env.client_ok = true → env.send_ok = true →
      env.status_success = true → env.elapsed = 1 →
      (speedLoop (env.content_length.getD 0) env.reads 0 []).1 = some 1048576 →
      (test_mirror_speed_with_progress_impl env).1 = some 1) := by
  refine ⟨?_, ?_, ?_, ?_⟩
  · intro env h0
    unfold test_mirror_speed_with_progress_impl
    cases hcl : env.client_ok <;> cases hsd : env.send_ok <;>
      cases hst : env.status_success <;> simp
    rcases hsp : speedLoop (env.content_length.getD 0) env.reads 0 [] with ⟨r, p⟩
    cases r <;> simp [h0]
  · intro env h
    unfold test_mirror_speed_with_progress_impl
    rcases h with h | h <;> rw [h] <;> cases hcl : env.client_ok <;> simp
  · intro env pre post hr hpre
    unfold test_mirror_speed_with_progress_impl
    rw [hr]
    cases hcl : env.client_ok <;> cases hsd : env.send_ok <;>
      cases hst : env.status_success <;> simp
    rcases hsp : speedLoop (env.content_length.getD 0)
        (pre ++ SpeedReadEv.err :: post) 0 [] with ⟨r, p⟩
    have hnone := speedLoop_err (env.content_length.getD 0) pre post 0 [] hpre
    rw [hsp] at hnone
    simp only at hnone
    subst hnone
    simp [hsp]
  · intro env h1 h2 h3 h4 hdl
    unfold test_mirror_speed_with_progress_impl
    rw [h1, h2, h3]
    rcases hsp : speedLoop (env.content_length.getD 0) env.reads 0 [] with ⟨r, p⟩
    rw [hsp] at hdl
    simp only at hdl
    subst hdl
    simp only [Bool.not_true, Bool.false_eq_true, if_false, h4]
    rw [hsp]
    norm_num

theorem mirror_speed_spec_witness :
    (test_mirror_speed_with_progress_impl
        ⟨true, true, true, some 1048576, [SpeedReadEv.ok 1048576], 0⟩).1 = none ∧
    (test_mirror_speed_with_progress_impl
        ⟨true, false, true, none, [], 1⟩).1 = none ∧
    (test_mirror_speed_with_progress_impl
        ⟨true, true, true, some 1048576, [SpeedReadEv.ok 512, SpeedReadEv.err], 1⟩).1 =
      none ∧
    (test_mirror_speed_with_progress_impl
        ⟨true, true, true, some 1048576, [SpeedReadEv.ok 1048576], 1⟩).1 = some 1 :=
  ⟨mirror_speed_spec.1 ⟨true, true, true, some 1048576, [SpeedReadEv.ok 1048576], 0⟩ rfl,
    mirror_speed_spec.2.1 ⟨true, false, true, none, [], 1⟩ (Or.inl rfl),
    mirror_speed_spec.2.2.1
      ⟨true, true, true, some 1048576, [SpeedReadEv.ok 512, SpeedReadEv.err], 1⟩
      [SpeedReadEv.ok 512] [] rfl
      (by
        intro e he n hn
        rw [List.mem_singleton] at he
        subst he
        injection hn with h
        omega),
    mirror_speed_spec.2.2.2 ⟨true, true, true, some 1048576, [SpeedReadEv.ok 1048576], 1⟩
      rfl rfl rfl rfl (by decide)⟩

-- ### Theorems for get_seconds_since_update (claim C6)

theorem scanLog_foldl_spec (lines : List (List Char)) (saw : Bool)
    (start last : Option (List Char)) :
    (lines.foldl logStep ⟨saw, start, last⟩).lastValid =
      (match lastQualifyingStart lines with
        | some ts => some ts
        | none => if saw && lines.any isCompletedLine then start else last) := by
  induction lines generalizing saw start last with
  | nil => simp [lastQualifyingStart]
  | cons l rest ih =>
    simp only [List.foldl_cons]
    by_cases hs : isStartLine l <;> by_cases hc : isCompletedLine l
    · have hstep : logStep ⟨saw, start, last⟩ l =
          ⟨false, some (extractTimestamp (trimChars l)),
            some (extractTimestamp (trimChars l))⟩ := by
        simp [logStep, hs, hc]
      rw [hstep, ih]
      cases hq : lastQualifyingStart rest <;>
        simp [lastQualifyingStart, hs, hc, hq]
    · have hstep : logStep ⟨saw, start, last⟩ l =
          ⟨true, some (extractTimestamp (trimChars l)), last⟩ := by
        simp [logStep, hs, hc]
      rw [hstep, ih]
      cases hq : lastQualifyingStart rest <;>
        cases ha : rest.any isCompletedLine <;>
        simp [lastQualifyingStart, hs, hc, hq, ha]
    · cases saw with
      | true =>
        have hstep : logStep ⟨true, start, last⟩ l = ⟨false, start, start⟩ := by
          simp [logStep, hs, hc]
        rw [hstep, ih]
        cases hq : lastQualifyingStart rest <;>
          simp [lastQualifyingStart, hs, hc, hq]
      | false =>
        have hstep : logStep ⟨false, start, last⟩ l = ⟨false, start, last⟩ := by
          simp [logStep, hs, hc]
        rw [hstep, ih]
        cases hq : lastQualifyingStart rest <;>
          simp [lastQualifyingStart, hs, hc, hq]
    · have hstep : logStep ⟨saw, start, last⟩ l = ⟨saw, start, last⟩ := by
        simp [logStep, hs, hc]
      rw [hstep, ih]
      cases hq : lastQualifyingStart rest <;>
        simp [lastQualifyingStart, hs, hc, hq]

theorem scanLog_lastValid (lines : List (List Char)) :
    (scanLog lines).lastValid = lastQualifyingStart lines := by
  unfold scanLog
  rw [scanLog_foldl_spec]
  cases hq : lastQualifyingStart lines <;> simp

/-- C6: under the precondition that the log was readable and the extracted
timestamp of the most recent completed full-system-upgrade block is
well-formed (long enough to slice and parseable), get_seconds_since_update
returns the inner none iff the log has no completed block (no start-marker
line followed by a completed-marker line), and otherwise returns now minus
the parsed start timestamp of the most recent completed block, clamped to at
least 0. -/
theorem seconds_since_update_spec (c : String) (parseTs : List Char → Option Int)
    (now : Int)
    (hwf : ∀ ts, lastQualifyingStart (rustLines c) = some ts →
      22 ≤ ts.length ∧ ∃ t, parseTs (fmtTimestamp ts) = some t) :
    (get_seconds_since_update (some c) parseTs now = some none ↔
      lastQualifyingStart (rustLines c) = none) ∧
    (∀ ts t, lastQualifyingStart (rustLines c) = some ts →
      parseTs (fmtTimestamp ts) = some t →
      get_seconds_since_update (some c) parseTs now = some (some (max (now - t) 0))) := by
  have hscan : (scanLog (rustLines c)).lastValid = lastQualifyingStart (rustLines c) :=
    scanLog_lastValid (rustLines c)
  constructor
  · cases hq : lastQualifyingStart (rustLines c) with
    | none => simp [get_seconds_since_update, hscan, hq]
    | some ts =>
      obtain ⟨hlen, t0, hp⟩ := hwf ts hq
      simp [get_seconds_since_update, hscan, hq, Nat.not_lt.mpr hlen, hp]
  · intro ts t hq hp
    obtain ⟨hlen, _⟩ := hwf ts hq
    simp [get_seconds_since_update, hscan, hq, Nat.not_lt.mpr hlen, hp]

theorem seconds_since_update_spec_witness :
    get_seconds_since_update
      (some (String.mk
        ("[2024-01-01T00:00:00+0000] starting full system upgrade".data ++
          '\n' :: "[2024-01-01T00:00:10+0000] transaction completed".data)))
      (fun _ => some 100) 250 = some (some 150) := by
  have hq : lastQualifyingStart (rustLines (String.mk
      ("[2024-01-01T00:00:00+0000] starting full system upgrade".data ++
        '\n' :: "[2024-01-01T00:00:10+0000] transaction completed".data))) =
      some "2024-01-01T00:00:00+0000".data := by decide
  have h := (seconds_since_update_spec _ (fun _ => some 100) 250
      (fun ts hts => by
        rw [hq] at hts
        cases hts
        exact ⟨by decide, 100, rfl⟩)).2
    "2024-01-01T00:00:00+0000".data 100 hq rfl
  simpa using h

-- ### Theorems for run_pacman_pty (claim C4)

theorem ptyLoop_ok (filterOn : Bool) (trace : List PtyEv) :
    ∀ st r st', ptyLoop filterOn trace st = some (r, st') → r = Except.ok () := by
  induction trace with
  | nil =>
    intro st r st' h
    simp [ptyLoop] at h
  | cons e rest ih =>
    intro st r st' h
    cases e with
    | aliveFalse =>
      simp only [ptyLoop, Option.some.injEq, Prod.mk.injEq] at h
      exact h.1.symm
    | aliveErr =>
      simp only [ptyLoop, Option.some.injEq, Prod.mk.injEq] at h
      exact h.1.symm
    | aliveTrue rr =>
      cases rr with
      | okZero => exact ih _ r st' h
      | okChunk chunk => exact ih _ r st' h
      | errTransient => exact ih _ r st' h
      | errFatal =>
        simp only [ptyLoop, Option.some.injEq, Prod.mk.injEq] at h
        exact h.1.symm

/-- C4: run_pacman_pty errs only on spawn failure, and that error carries the
underlying cause; every observed exit of the read loop returns success; a
non-transient read error ends the loop (with the final flush) but still
yields Ok; transient WouldBlock/Interrupted errors merely retry and are
never fatal. -/
theorem run_pacman_pty_error_semantics :
    (∀ args filterOn e trace stdin_lines,
      run_pacman_pty args filterOn (Except.error e) trace stdin_lines =
        some (Except.error ("Failed to spawn pacman: " ++ e), ⟨[], [], stdin_lines, []⟩)) ∧
    (∀ args filterOn trace stdin_lines r st,
      run_pacman_pty args filterOn (Except.ok ()) trace stdin_lines = some (r, st) →
      r = Except.ok ()) ∧
    (∀ filterOn rest st,
      ptyLoop filterOn (PtyEv.aliveTrue ReadRes.errFatal :: rest) st =
        some (Except.ok (), ptyFlushFinal filterOn st)) ∧
    (∀ filterOn rest st,
      ptyLoop filterOn (PtyEv.aliveTrue ReadRes.errTransient :: rest) st =
        ptyLoop filterOn rest st) := by
  refine ⟨?_, ?_, ?_, ?_⟩
  · intro args filterOn e trace stdin_lines
    rfl
  · intro args filterOn trace stdin_lines r st h
    exact ptyLoop_ok filterOn trace _ r st h
  · intro filterOn rest st
    rfl
  · intro filterOn rest st
    rfl

theorem run_pacman_pty_error_semantics_witness :
    run_pacman_pty [] true (Except.error "boom") [] [] =
      some (Except.error "Failed to spawn pacman: boom", ⟨[], [], [], []⟩) ∧
    (Except.ok () : Except String Unit) = Except.ok () :=
  ⟨run_pacman_pty_error_semantics.1 [] true "boom" [] [],
    run_pacman_pty_error_semantics.2.1 [] true [PtyEv.aliveFalse] [] (Except.ok ())
      (ptyFlushFinal true ⟨[], [], [], []⟩) rfl⟩

-- ### Theorems for the root checks (claim C5)

/-- C5: sync_databases and upgrade_system invoked while not running as root
return a descriptive error mentioning the need for root, and no subprocess
is spawned (the recorded action list is empty, the check preceding every
spawn). -/
theorem root_check_fail_fast :
    (∀ spawn_res trace,
      sync_databases false spawn_res trace =
        (some (Except.error "Database sync requires root, rerun with sudo"), []) ∧
      listContains "Database sync requires root, rerun with sudo".data
        "requires root".data = true) ∧
    (∀ text_mode sync_first sync_spawn sync_trace requested env pty_spawn pty_trace
        stdin_lines,
      upgrade_system false text_mode sync_first sync_spawn sync_trace requested env
          pty_spawn pty_trace stdin_lines =
        (some (Except.error "System upgrade requires root, rerun with sudo"), []) ∧
      listContains "System upgrade requires root, rerun with sudo".data
        "requires root".data = true) := by
  constructor
  · intro spawn_res trace
    exact ⟨rfl, by decide⟩
  · intro text_mode sync_first sync_spawn sync_trace requested env pty_spawn pty_trace
      stdin_lines
    exact ⟨rfl, by decide⟩

-- ### Theorems for get_stats (claims C1, C10)

theorem mem_requested_eq (x : StatId) (l : List StatId) :
    x ∈ l ↔ l.contains x = true := by
  simp [List.contains, List.elem_iff]

theorem upgrade_request_disj_eq (requested : List StatId) :
    (StatId.Upgradable ∈ requested ∨ StatId.DownloadSize ∈ requested ∨
      StatId.InstalledSize ∈ requested ∨ StatId.NetUpgradeSize ∈ requested) ↔
      needs_upgrade_stats requested = true := by
  unfold needs_upgrade_stats
  rw [List.any_eq_true]
  constructor
  · rintro (h | h | h | h) <;> exact ⟨_, h, rfl⟩
  · rintro ⟨s, hs, hm⟩
    cases s <;> simp at hm <;> tauto

theorem mem_if_singleton (c : Prop) [Decidable c] (x y : Probe) :
    x ∈ (if c then [y] else []) ↔ c ∧ x = y := by
  split <;> simp_all

theorem get_stats_tail_spec (requested : List StatId) (env : StatsEnv)
    (s3 : ManagerStats) (p3 : List Probe) (sh : Option (Option ℚ))
    (stats : ManagerStats) (probes : List Probe)
    (h : get_stats_tail requested env s3 p3 sh = some (stats, probes)) :
    probes = p3 ++
      (if requested.contains StatId.Installed = true then [Probe.installed] else []) ++
      (if requested.contains StatId.LastUpdate = true then [Probe.lastUpdate] else []) ++
      (if requested.contains StatId.CacheSize = true then [Probe.cacheSize] else []) ++
      [Probe.version] ∧
    stats.total_upgradable = s3.total_upgradable ∧
    stats.download_size_mb = s3.download_size_mb ∧
    stats.total_installed_size_mb = s3.total_installed_size_mb ∧
    stats.net_upgrade_size_mb = s3.net_upgrade_size_mb ∧
    stats.orphaned_packages = s3.orphaned_packages ∧
    stats.orphaned_size_mb = s3.orphaned_size_mb ∧
    stats.mirror_url = s3.mirror_url ∧
    (requested.contains StatId.Installed = false →
      stats.total_installed = s3.total_installed) ∧
    (requested.contains StatId.LastUpdate = false →
      stats.days_since_last_update = s3.days_since_last_update) ∧
    stats.cache_size_mb =
      (if requested.contains StatId.CacheSize = true then get_cache_size env.cache_dir
        else s3.cache_size_mb) ∧
    (sh = none → stats.mirror_sync_age_hours = s3.mirror_sync_age_hours) ∧
    (∀ rq, sh = some rq → stats.mirror_sync_age_hours = rq) := by
  rcases hic : get_installed_count env.pacmanQ_output with _ | n <;>
    rcases hsu : get_seconds_since_update env.log_contents env.parseTs env.now with _ | r <;>
    cases hin : requested.contains StatId.Installed <;>
    cases hlu : requested.contains StatId.LastUpdate <;>
    cases hcs : requested.contains StatId.CacheSize <;>
    rcases sh with _ | rq <;>
    simp_all [get_stats_tail] <;>
    (obtain ⟨h1, h2⟩ := h
     subst h1
     subst h2
     simp_all)

set_option maxRecDepth 8000 in
set_option maxHeartbeats 3200000 in
/-- C1: in every completed get_stats run, the upgrade-transaction probe ran
iff the request holds one of Upgradable, DownloadSize, InstalledSize or
NetUpgradeSize; the orphan probe ran iff OrphanedPackages was requested; the
mirror-URL probe ran iff MirrorUrl or MirrorHealth was requested; the
mirror-sync-age probe ran iff MirrorHealth was requested; the remaining
gated probes ran iff their own kind was requested; and no result field of a
probe that did not run is ever populated. -/
theorem get_stats_probe_gating (requested : List StatId) (env : StatsEnv)
    (stats : ManagerStats) (probes : List Probe)
    (h : get_stats requested env = some (stats, probes)) :
    ((Probe.upgrade ∈ probes) ↔
      (StatId.Upgradable ∈ requested ∨ StatId.DownloadSize ∈ requested ∨
        StatId.InstalledSize ∈ requested ∨ StatId.NetUpgradeSize ∈ requested)) ∧
    ((Probe.orphan ∈ probes) ↔ StatId.OrphanedPackages ∈ requested) ∧
    ((Probe.mirrorUrl ∈ probes) ↔
      (StatId.MirrorUrl ∈ requested ∨ StatId.MirrorHealth ∈ requested)) ∧
    ((Probe.mirrorSync ∈ probes) ↔ StatId.MirrorHealth ∈ requested) ∧
    ((Probe.installed ∈ probes) ↔ StatId.Installed ∈ requested) ∧
    ((Probe.lastUpdate ∈ probes) ↔ StatId.LastUpdate ∈ requested) ∧
    ((Probe.cacheSize ∈ probes) ↔ StatId.CacheSize ∈ requested) ∧
    (stats.download_size_mb ≠ none → Probe.upgrade ∈ probes) ∧
    (stats.total_installed_size_mb ≠ none → Probe.upgrade ∈ probes) ∧
    (stats.net_upgrade_size_mb ≠ none → Probe.upgrade ∈ probes) ∧
    (stats.total_upgradable ≠ 0 → Probe.upgrade ∈ probes) ∧
    (stats.orphaned_packages ≠ none → Probe.orphan ∈ probes) ∧
    (stats.orphaned_size_mb ≠ none → Probe.orphan ∈ probes) ∧
    (stats.mirror_url ≠ none → Probe.mirrorUrl ∈ probes) ∧
    (stats.mirror_sync_age_hours ≠ none → Probe.mirrorSync ∈ probes) ∧
    (stats.total_installed ≠ 0 → Probe.installed ∈ probes) ∧
    (stats.days_since_last_update ≠ none → Probe.lastUpdate ∈ probes) ∧
    (stats.cache_size_mb ≠ none → Probe.cacheSize ∈ probes) := by
  unfold get_stats at h
  cases hmu : needs_mirror_url requested
  · have hmh : needs_mirror_health requested = false := by
      cases hb : needs_mirror_health requested
      · rfl
      · simp [needs_mirror_url, hb] at hmu
    cases hu : needs_upgrade_stats requested <;>
      cases ho : needs_orphan_stats requested <;>
      cases hin : requested.contains StatId.Installed <;>
      cases hlu : requested.contains StatId.LastUpdate <;>
      cases hcs : requested.contains StatId.CacheSize <;>
      (simp only [hu, ho, hmh, hmu, Bool.false_eq_true, Bool.true_eq_false,
        if_true, if_false] at h
       obtain ⟨hp, h2, h3, h4, h5, h6, h7, h8, h9, h10, h11, h12, h13⟩ :=
        get_stats_tail_spec _ _ _ _ _ _ _ h
       subst hp
       simp_all [List.mem_append, mem_if_singleton,
        upgrade_request_disj_eq, needs_orphan_stats, needs_mirror_health,
        needs_mirror_url])
  · cases hmh : needs_mirror_health requested <;>
      cases hu : needs_upgrade_stats requested <;>
      cases ho : needs_orphan_stats requested <;>
      cases hin : requested.contains StatId.Installed <;>
      cases hlu : requested.contains StatId.LastUpdate <;>
      cases hcs : requested.contains StatId.CacheSize <;>
      (simp only [hu, ho, hmh, hmu, Bool.false_eq_true, Bool.true_eq_false,
        if_true, if_false] at h
       obtain ⟨hp, h2, h3, h4, h5, h6, h7, h8, h9, h10, h11, h12, h13⟩ :=
        get_stats_tail_spec _ _ _ _ _ _ _ h
       subst hp
       simp_all [List.mem_append, mem_if_singleton,
        upgrade_request_disj_eq, needs_orphan_stats, needs_mirror_health,
        needs_mirror_url])

theorem get_stats_probe_gating_witness :
    get_stats [StatId.MirrorHealth]
        ⟨⟨false, false, false, false, [], [], fun _ => none⟩, ⟨false, []⟩, none,
          fun _ => none, none, none, fun _ => none, 0, none, none⟩ =
      some ({}, [Probe.mirrorUrl, Probe.mirrorSync, Probe.version]) ∧
    (Probe.mirrorSync ∈ [Probe.mirrorUrl, Probe.mirrorSync, Probe.version] ↔
      StatId.MirrorHealth ∈ [StatId.MirrorHealth]) := by
  have h : get_stats [StatId.MirrorHealth]
      (⟨⟨false, false, false, false, [], [], fun _ => none⟩, ⟨false, []⟩, none,
        fun _ => none, none, none, fun _ => none, 0, none, none⟩ : StatsEnv) =
      some ({}, [Probe.mirrorUrl, Probe.mirrorSync, Probe.version]) := by decide
  exact ⟨h, (get_stats_probe_gating _ _ _ _ h).2.2.2.1⟩

set_option maxRecDepth 8000 in
set_option maxHeartbeats 3200000 in
/-- C10: the two non-optional counters of the stats record default to zero
when their probes are skipped: a completed get_stats run with Installed
absent from the request reports total_installed = 0, and one with none of
Upgradable, DownloadSize, InstalledSize, NetUpgradeSize requested reports
total_upgradable = 0 — and a genuine count of zero produces the same value,
so the two cases are indistinguishable to a caller. -/
theorem counters_default_zero (requested : List StatId) (env : StatsEnv)
    (stats : ManagerStats) (probes : List Probe)
    (h : get_stats requested env = some (stats, probes)) :
    (StatId.Installed ∉ requested → stats.total_installed = 0) ∧
    (StatId.Upgradable ∉ requested → StatId.DownloadSize ∉ requested →
      StatId.InstalledSize ∉ requested → StatId.NetUpgradeSize ∉ requested →
      stats.total_upgradable = 0) ∧
    (∃ env2 stats2 probes2,
      get_stats [StatId.Installed] env2 = some (stats2, probes2) ∧
      stats2.total_installed = 0) := by
  have hpair : (StatId.Installed ∉ requested → stats.total_installed = 0) ∧
      (StatId.Upgradable ∉ requested → StatId.DownloadSize ∉ requested →
        StatId.InstalledSize ∉ requested → StatId.NetUpgradeSize ∉ requested →
        stats.total_upgradable = 0) := by
    unfold get_stats at h
    cases hmu : needs_mirror_url requested
    · have hmh : needs_mirror_health requested = false := by
        cases hb : needs_mirror_health requested
        · rfl
        · simp [needs_mirror_url, hb] at hmu
      cases hu : needs_upgrade_stats requested <;>
        cases ho : needs_orphan_stats requested <;>
        cases hin : requested.contains StatId.Installed <;>
        cases hlu : requested.contains StatId.LastUpdate <;>
        cases hcs : requested.contains StatId.CacheSize <;>
        (simp only [hu, ho, hmh, hmu, Bool.false_eq_true, Bool.true_eq_false,
          if_true, if_false] at h
         obtain ⟨hp, h2, h3, h4, h5, h6, h7, h8, h9, h10, h11, h12, h13⟩ :=
          get_stats_tail_spec _ _ _ _ _ _ _ h
         subst hp
         have hdisj := upgrade_request_disj_eq requested
         simp_all [List.mem_append, mem_if_singleton, needs_orphan_stats,
          needs_mirror_health, needs_mirror_url]
         all_goals tauto)
    · cases hmh : needs_mirror_health requested <;>
        cases hu : needs_upgrade_stats requested <;>
        cases ho : needs_orphan_stats requested <;>
        cases hin : requested.contains StatId.Installed <;>
        cases hlu : requested.contains StatId.LastUpdate <;>
        cases hcs : requested.contains StatId.CacheSize <;>
        (simp only [hu, ho, hmh, hmu, Bool.false_eq_true, Bool.true_eq_false,
          if_true, if_false] at h
         obtain ⟨hp, h2, h3, h4, h5, h6, h7, h8, h9, h10, h11, h12, h13⟩ :=
          get_stats_tail_spec _ _ _ _ _ _ _ h
         subst hp
         have hdisj := upgrade_request_disj_eq requested
         simp_all [List.mem_append, mem_if_singleton, needs_orphan_stats,
          needs_mirror_health, needs_mirror_url]
         all_goals tauto)
  refine ⟨hpair.1, hpair.2, ?_⟩
  exact ⟨⟨⟨false, false, false, false, [], [], fun _ => none⟩, ⟨false, []⟩, none,
      fun _ => none, some "", none, fun _ => none, 0, none, none⟩,
    {}, [Probe.installed, Probe.version], by decide, rfl⟩

theorem counters_default_zero_witness :
    get_stats []
        ⟨⟨false, false, false, false, [], [], fun _ => none⟩, ⟨false, []⟩, none,
          fun _ => none, none, none, fun _ => none, 0, none, none⟩ =
      some ({}, [Probe.version]) ∧
    ({} : ManagerStats).total_installed = 0 := by
  have h : get_stats ([] : List StatId)
      (⟨⟨false, false, false, false, [], [], fun _ => none⟩, ⟨false, []⟩, none,
        fun _ => none, none, none, fun _ => none, 0, none, none⟩ : StatsEnv) =
      some ({}, [Probe.version]) := by decide
  exact ⟨h, (counters_default_zero _ _ _ _ h).1 (by decide)⟩

end Upkg
